import Mathlib

/-!
Shallow embedding of the `maze` repository's structured torch-policy core:

* `maze/core/agent/torch_policy.py` — `PolicySubStepOutput`, `PolicyOutput`,
  `TorchPolicy` (network registry and addressing, logits partitioning,
  sub-step orchestration, structured aggregation, log-probabilities,
  state-dict serialization);
* `maze/test/shared_test_utils/dummy_env/dummy_structured_core_env.py` —
  `DummyStructuredCoreEnvironment`.

External collaborators (torch `nn.Module` forward passes, tensor conversion,
the distribution mapper's distribution construction, `log_prob`, module
`state_dict`/`load_state_dict`, observation sampling, reward aggregation) are
abstract type parameters and opaque function fields; the repository's own
control flow (registry lookup, key partitioning, iteration order, asserts) is
embedded faithfully.  Python dictionaries are modelled as insertion-ordered
association lists; Python `assert`/`KeyError` failures become an explicit
`Except` error channel.
-/

namespace Maze

/-- `ActorID` from `maze.core.env.structured_env`: a `(step_key, agent_id)`
pair identifying who acts in a given sub-step.  Step keys (`Union[str, int]`
in Python) are modelled as naturals. -/
structure ActorID where
  step_key : Nat
  agent_id : Nat
deriving DecidableEq, Repr

/-- A key of the `TorchPolicy.networks` mapping: Python stores either a bare
step key (shared-network mode) or a full `ActorID` (separate-agent-nets mode)
as the dictionary key; these are distinct Python values, modelled as a tagged
union. -/
inductive NetworkKey where
  | byStep (step_key : Nat)
  | byActor (actor_id : ActorID)
deriving DecidableEq, Repr

/-- The failure channel of the embedded methods.  Python raises
`AssertionError` / `KeyError`; each raise site gets one constructor. -/
inductive PolicyError where
  /-- `assert len(self.networks) == 1` in `network_for(None)` failed. -/
  | ambiguousNetworkSelection
  /-- `self.networks[network_key]` raised `KeyError`. -/
  | keyNotFound (key : NetworkKey)
  /-- `assert len(embedding_out) > 0` in `compute_logits_dict` failed. -/
  | missingEmbeddingOutput
  /-- `assert key in state_dict_policies` in `load_state_dict` failed. -/
  | missingStateDictEntry (key : NetworkKey)
  /-- `assert len(policy_output.prob_dist) == len(actions)` failed. -/
  | lengthMismatch
deriving DecidableEq, Repr

/-- Python `dict[key]` / `key in dict` on an insertion-ordered association
list (keys of a Python dict are unique, so first-match lookup agrees with
dict indexing). -/
def dictLookup {α β : Type} [DecidableEq α] (key : α) : List (α × β) → Option β
  | [] => none
  | kv :: rest => if kv.1 = key then some kv.2 else dictLookup key rest

/-- The slice of `DistributionMapper` that `TorchPolicy` consumes:
`action_space.spaces.keys()` and `logits_dict_to_distribution`.  The
distribution construction itself is an external collaborator, hence an opaque
function into an abstract type `Dist`; the temperature scalar is modelled
as a rational. -/
structure DistributionMapper (Tensor Dist : Type) where
  action_space_keys : List String
  logits_dict_to_distribution : List (String × Tensor) → ℚ → Dist

/-- The external torch operations `TorchPolicy` delegates to:
`convert_to_torch` (tensor conversion of an observation), calling an
`nn.Module` on a converted observation (returning its named output
dictionary), and the module-level `state_dict` / `load_state_dict`
(the latter modelled functionally: it returns the updated module). -/
structure TorchOps (Obs Net Tensor SD : Type) where
  convert_to_torch : Obs → Obs
  forward : Net → Obs → List (String × Tensor)
  module_state_dict : Net → SD
  module_load_state_dict : Net → SD → Net

/-- `TorchPolicy.__init__` state: the network registry (a Python dict keyed
by step key or full actor id, modelled as an ordered association list), the
distribution mapper, and `substeps_with_separate_agent_nets` (a Python set of
step keys, modelled by list membership).  The device marker is irrelevant to
the embedded logic and omitted. -/
structure TorchPolicy (Net Tensor Dist : Type) where
  networks : List (NetworkKey × Net)
  distribution_mapper : DistributionMapper Tensor Dist
  substeps_with_separate_agent_nets : List Nat

/-- `PolicySubStepOutput` dataclass: action logits, the probability
distribution, the optional embedding logits, and the actor id (`actor_id`
may be `None` in Python, hence `Option`). -/
structure PolicySubStepOutput (Tensor Dist : Type) where
  action_logits : List (String × Tensor)
  prob_dist : Dist
  embedding_logits : Option (List (String × Tensor))
  actor_id : Option ActorID

/-- `PolicyOutput`: an ordered sequence of `PolicySubStepOutput`, one per
sub-step of a full environment step. -/
structure PolicyOutput (Tensor Dist : Type) where
  step_policy_outputs : List (PolicySubStepOutput Tensor Dist)

namespace PolicyOutput

variable {Tensor Dist : Type}

/-- `PolicyOutput.actor_ids`: list of actor IDs of the individual sub-steps. -/
def actor_ids (po : PolicyOutput Tensor Dist) : List (Option ActorID) :=
  po.step_policy_outputs.map (fun x => x.actor_id)

/-- `PolicyOutput.action_logits` property. -/
def action_logits (po : PolicyOutput Tensor Dist) : List (List (String × Tensor)) :=
  po.step_policy_outputs.map (fun x => x.action_logits)

/-- `PolicyOutput.prob_dist` property. -/
def prob_dist (po : PolicyOutput Tensor Dist) : List Dist :=
  po.step_policy_outputs.map (fun x => x.prob_dist)

/-- `PolicyOutput.embedding_logits` property. -/
def embedding_logits (po : PolicyOutput Tensor Dist) :
    List (Option (List (String × Tensor))) :=
  po.step_policy_outputs.map (fun x => x.embedding_logits)

end PolicyOutput

/-- One sub-step entry of a `StructuredSpacesRecord` (external collaborator,
consumed not owned): the observation and the actor id the orchestrator
consumes. -/
structure SpacesRecord (Obs : Type) where
  observation : Obs
  actor_id : ActorID

/-- `StructuredSpacesRecord`: the ordered sequence of sub-step records of one
full (flat) environment step. -/
structure StructuredSpacesRecord (Obs : Type) where
  substep_records : List (SpacesRecord Obs)

namespace TorchPolicy

variable {Obs Net Tensor SD Dist Action : Type}

/-- The `network_key` selection line of `TorchPolicy.network_for`: the full
actor id when its step key is in `substeps_with_separate_agent_nets`, else
the step key alone. -/
def network_key (p : TorchPolicy Net Tensor Dist) (actor_id : ActorID) : NetworkKey :=
  if actor_id.step_key ∈ p.substeps_with_separate_agent_nets then .byActor actor_id
  else .byStep actor_id.step_key

/-- `TorchPolicy.network_for`: with `actor_id = None`, asserts that exactly
one network is registered and returns it (`list(self.networks.values())[0]`);
otherwise resolves the lookup key via `network_key` and indexes the registry
(`KeyError` when unregistered). -/
def network_for (p : TorchPolicy Net Tensor Dist) (actor_id : Option ActorID) :
    Except PolicyError Net :=
  match actor_id with
  | none =>
    match p.networks with
    | [kp] => .ok kp.2
    | _ => .error .ambiguousNetworkSelection
  | some aid =>
    match dictLookup (p.network_key aid) p.networks with
    | some net => .ok net
    | none => .error (.keyNotFound (p.network_key aid))

/-- `TorchPolicy.compute_logits_dict(observation, actor_id, return_embedding)`:
converts the observation, runs the resolved network, optionally computes the
embedding partition (asserting it non-empty), and strips keys outside the
action space from the returned logits dictionary. -/
def compute_logits_dict (ops : TorchOps Obs Net Tensor SD)
    (p : TorchPolicy Net Tensor Dist) (observation : Obs)
    (actor_id : Option ActorID) (return_embedding : Bool) :
    Except PolicyError (List (String × Tensor) × Option (List (String × Tensor))) :=
  let obs_t := ops.convert_to_torch observation
  match p.network_for actor_id with
  | .error e => .error e
  | .ok net =>
    let network_out := ops.forward net obs_t
    let keys := p.distribution_mapper.action_space_keys
    let embedding_result : Except PolicyError (Option (List (String × Tensor))) :=
      match return_embedding with
      | true =>
        let embedding_out := network_out.filter (fun ii => decide (ii.1 ∉ keys))
        if embedding_out.length > 0 then Except.ok (some embedding_out)
        else Except.error PolicyError.missingEmbeddingOutput
      | false => Except.ok none
    match embedding_result with
    | .error e => .error e
    | .ok embedding_out =>
      let network_out2 :=
        if network_out.any (fun ii => decide (ii.1 ∉ keys)) then
          network_out.filter (fun ii => decide (ii.1 ∈ keys))
        else network_out
      .ok (network_out2, embedding_out)

/-- `TorchPolicy.compute_substep_policy_output(observation, actor_id,
temperature)`: converts the observation, runs the resolved network,
partitions the output dictionary into action vs. embedding logits by
action-space key membership, builds the distribution from the action logits
and the temperature, and bundles everything with the supplied actor id. -/
def compute_substep_policy_output (ops : TorchOps Obs Net Tensor SD)
    (p : TorchPolicy Net Tensor Dist) (observation : Obs)
    (actor_id : Option ActorID) (temperature : ℚ) :
    Except PolicyError (PolicySubStepOutput Tensor Dist) :=
  let obs_t := ops.convert_to_torch observation
  match p.network_for actor_id with
  | .error e => .error e
  | .ok net =>
    let network_out := ops.forward net obs_t
    let keys := p.distribution_mapper.action_space_keys
    if network_out.any (fun ii => decide (ii.1 ∉ keys)) then
      let action_logits := network_out.filter (fun ii => decide (ii.1 ∈ keys))
      let embedding_logits := network_out.filter (fun ii => decide (ii.1 ∉ keys))
      .ok { action_logits := action_logits
            prob_dist := p.distribution_mapper.logits_dict_to_distribution action_logits temperature
            embedding_logits := some embedding_logits
            actor_id := actor_id }
    else
      .ok { action_logits := network_out
            prob_dist := p.distribution_mapper.logits_dict_to_distribution network_out temperature
            embedding_logits := none
            actor_id := actor_id }

/-- The loop body of `TorchPolicy.compute_policy_output`: iterate the
sub-step records in order, invoking `compute_substep_policy_output` for each
and collecting the outputs in the same order. -/
def compute_substep_outputs (ops : TorchOps Obs Net Tensor SD)
    (p : TorchPolicy Net Tensor Dist) (temperature : ℚ) :
    List (SpacesRecord Obs) → Except PolicyError (List (PolicySubStepOutput Tensor Dist))
  | [] => .ok []
  | r :: rest =>
    match compute_substep_policy_output ops p r.observation (some r.actor_id) temperature with
    | .error e => .error e
    | .ok out =>
      match compute_substep_outputs ops p temperature rest with
      | .error e => .error e
      | .ok outs => .ok (out :: outs)

/-- `TorchPolicy.compute_policy_output(record, temperature)`: appends one
`PolicySubStepOutput` per sub-step record, in the record's order, to a fresh
`PolicyOutput`. -/
def compute_policy_output (ops : TorchOps Obs Net Tensor SD)
    (p : TorchPolicy Net Tensor Dist) (record : StructuredSpacesRecord Obs)
    (temperature : ℚ) : Except PolicyError (PolicyOutput Tensor Dist) :=
  match compute_substep_outputs ops p temperature record.substep_records with
  | .error e => .error e
  | .ok outs => .ok ⟨outs⟩

/-- Static `TorchPolicy.compute_action_log_probs(policy_output, actions)`:
asserts the lengths match and returns the per-position `log_prob` of each
action under the corresponding distribution.  `log_prob` is a method of the
external distribution objects, passed as an opaque function. -/
def compute_action_log_probs (log_prob : Dist → Action → Tensor)
    (policy_output : PolicyOutput Tensor Dist) (actions : List Action) :
    Except PolicyError (List Tensor) :=
  if policy_output.prob_dist.length = actions.length then
    .ok ((policy_output.prob_dist.zip actions).map (fun pa => log_prob pa.1 pa.2))
  else
    .error .lengthMismatch

/-- `TorchPolicy.state_dict`: one entry per registered network, keyed by its
registry key, nested under the single top-level key `"policies"`. -/
def state_dict (ops : TorchOps Obs Net Tensor SD) (p : TorchPolicy Net Tensor Dist) :
    List (String × List (NetworkKey × SD)) :=
  [("policies", p.networks.map (fun kp => (kp.1, ops.module_state_dict kp.2)))]

/-- The loop of `TorchPolicy.load_state_dict`: for every registered
`(key, network)` pair in registry order, assert `key` has an entry in the
supplied `"policies"` sub-dictionary and load it into the network. -/
def load_networks (ops : TorchOps Obs Net Tensor SD) :
    List (NetworkKey × Net) → List (NetworkKey × SD) →
    Except PolicyError (List (NetworkKey × Net))
  | [], _ => .ok []
  | kp :: rest, sdp =>
    match dictLookup kp.1 sdp with
    | none => .error (.missingStateDictEntry kp.1)
    | some sd =>
      match load_networks ops rest sdp with
      | .error e => .error e
      | .ok rest2 => .ok ((kp.1, ops.module_load_state_dict kp.2 sd) :: rest2)

/-- `TorchPolicy.load_state_dict(state_dict)`: when the supplied dictionary
has a `"policies"` entry, load every registered network's state from it
(asserting each registered key is present); a dictionary without a
`"policies"` entry is silently ignored. -/
def load_state_dict (ops : TorchOps Obs Net Tensor SD)
    (p : TorchPolicy Net Tensor Dist) (sd : List (String × List (NetworkKey × SD))) :
    Except PolicyError (TorchPolicy Net Tensor Dist) :=
  match dictLookup "policies" sd with
  | none => .ok p
  | some sdp =>
    match load_networks ops p.networks sdp with
    | .error e => .error e
    | .ok nets => .ok { p with networks := nets }

end TorchPolicy

/-- `DummyStructuredCoreEnvironment` state: `current_agent` plus the
environment-context step counter touched by `context.increment_env_step()`.
`observation_space.sample()` and `reward_aggregator.summarize_reward()` are
external collaborators (randomness / pubsub events), modelled as opaque
fields holding the value the call would return. -/
structure DummyStructuredCoreEnvironment (Obs : Type) where
  current_agent : Nat
  env_step_count : Nat
  sampled_observation : Obs
  summarized_reward : ℚ

namespace DummyStructuredCoreEnvironment

variable {Obs : Type}

/-- `get_maze_state`: samples a random observation (opaque here). -/
def get_maze_state (env : DummyStructuredCoreEnvironment Obs) : Obs :=
  env.sampled_observation

/-- `step(maze_action)`: switch agents, increment the env step after the
second agent.  The `maze_action` argument is unused by the method body and
omitted; the returned `info` dict is always `{}` and omitted.  Returns the
updated environment together with the Python return tuple
`(state, reward, done)`. -/
def step (env : DummyStructuredCoreEnvironment Obs) :
    DummyStructuredCoreEnvironment Obs × Obs × ℚ × Bool :=
  if env.current_agent = 0 then
    let env2 := { env with current_agent := 1 }
    (env2, env2.get_maze_state, 0, false)
  else
    let env2 := { env with current_agent := 0, env_step_count := env.env_step_count + 1 }
    (env2, env2.get_maze_state, env.summarized_reward, false)

/-- `reset()`: reset the current agent, return the sampled state. -/
def reset (env : DummyStructuredCoreEnvironment Obs) :
    DummyStructuredCoreEnvironment Obs × Obs :=
  let env2 := { env with current_agent := 0 }
  (env2, env2.get_maze_state)

/-- `actor_id()`: single-step, two-agent environment. -/
def actor_id (env : DummyStructuredCoreEnvironment Obs) : Nat × Nat :=
  (0, env.current_agent)

/-- `agent_counts_dict` property: `{0: 2}`. -/
def agent_counts_dict (_env : DummyStructuredCoreEnvironment Obs) : List (Nat × Nat) :=
  [(0, 2)]

/-- `is_actor_done()`: actors are never done. -/
def is_actor_done (_env : DummyStructuredCoreEnvironment Obs) : Bool :=
  false

end DummyStructuredCoreEnvironment

/-! ### Theorems -/

open TorchPolicy

/-- C4: `network_for(None)` succeeds and returns the unique registered
network iff exactly one network is registered; when zero or more than one
network is registered it raises the ambiguous-network-selection
configuration error and does not return a network. -/
theorem network_for_none_spec {Net Tensor Dist : Type}
    (p : TorchPolicy Net Tensor Dist) :
    ((∃ net, p.network_for none = .ok net) ↔ p.networks.length = 1) ∧
    (∀ k net, p.networks = [(k, net)] → p.network_for none = .ok net) ∧
    (p.networks.length ≠ 1 →
      p.network_for none = .error .ambiguousNetworkSelection) := by
  obtain ⟨nets, dm, seps⟩ := p
  match nets with
  | [] => simp [TorchPolicy.network_for]
  | [kp] =>
    refine ⟨by simp [TorchPolicy.network_for], ?_, by simp⟩
    rintro k net h
    simp only [List.cons.injEq, and_true] at h
    simp [TorchPolicy.network_for, h]
  | kp1 :: kp2 :: rest => simp [TorchPolicy.network_for]

/-- C4 witness: a registry holding exactly one network returns it. -/
theorem network_for_none_spec_witness :
    TorchPolicy.network_for
      ({ networks := [(.byStep 0, 5)]
         distribution_mapper := ⟨[], fun _ _ => 0⟩
         substeps_with_separate_agent_nets := [] } : TorchPolicy Nat Nat Nat)
      none = .ok 5 :=
  (network_for_none_spec _).2.1 (.byStep 0) 5 rfl

/-- C3: `network_for(actor_id)` looks up under the full actor id when the
step key is in the separate-agent-nets set and under the step key alone
otherwise, raising a lookup error when the resolved key is unregistered; in
the two-substep scenario with separate nets only for step key 1,
`ActorID(1, 0)` and `ActorID(1, 1)` resolve to the two distinct registered
networks while every actor id with step key 0 resolves to the single network
registered under key 0. -/
theorem network_for_some_spec {Net Tensor Dist : Type} :
    (∀ (p : TorchPolicy Net Tensor Dist) (aid : ActorID),
      (aid.step_key ∈ p.substeps_with_separate_agent_nets →
        p.network_key aid = .byActor aid) ∧
      (aid.step_key ∉ p.substeps_with_separate_agent_nets →
        p.network_key aid = .byStep aid.step_key) ∧
      (∀ net, dictLookup (p.network_key aid) p.networks = some net →
        p.network_for (some aid) = .ok net) ∧
      (dictLookup (p.network_key aid) p.networks = none →
        p.network_for (some aid) = .error (.keyNotFound (p.network_key aid)))) ∧
    (∀ (dm : DistributionMapper Tensor Dist) (n0 n1 n2 : Net), n1 ≠ n2 →
      TorchPolicy.network_for
        { networks := [(.byStep 0, n0), (.byActor ⟨1, 0⟩, n1), (.byActor ⟨1, 1⟩, n2)]
          distribution_mapper := dm
          substeps_with_separate_agent_nets := [1] } (some ⟨1, 0⟩) = .ok n1 ∧
      TorchPolicy.network_for
        { networks := [(.byStep 0, n0), (.byActor ⟨1, 0⟩, n1), (.byActor ⟨1, 1⟩, n2)]
          distribution_mapper := dm
          substeps_with_separate_agent_nets := [1] } (some ⟨1, 1⟩) = .ok n2 ∧
      n1 ≠ n2 ∧
      (∀ agent_id, TorchPolicy.network_for
        { networks := [(.byStep 0, n0), (.byActor ⟨1, 0⟩, n1), (.byActor ⟨1, 1⟩, n2)]
          distribution_mapper := dm
          substeps_with_separate_agent_nets := [1] } (some ⟨0, agent_id⟩) = .ok n0)) := by
  constructor
  · intro p aid
    refine ⟨fun h => by simp [TorchPolicy.network_key, h],
            fun h => by simp [TorchPolicy.network_key, h], ?_, ?_⟩
    · intro net h
      simp [TorchPolicy.network_for, h]
    · intro h
      simp [TorchPolicy.network_for, h]
  · intro dm n0 n1 n2 hne
    refine ⟨?_, ?_, hne, ?_⟩
    · simp [TorchPolicy.network_for, TorchPolicy.network_key, dictLookup]
    · simp [TorchPolicy.network_for, TorchPolicy.network_key, dictLookup]
    · intro agent_id
      simp [TorchPolicy.network_for, TorchPolicy.network_key, dictLookup]

/-- C3 witness: the two-substep scenario with concrete distinct networks. -/
theorem network_for_some_spec_witness :
    TorchPolicy.network_for
      ({ networks := [(.byStep 0, 10), (.byActor ⟨1, 0⟩, 11), (.byActor ⟨1, 1⟩, 12)]
         distribution_mapper := ⟨[], fun _ _ => 0⟩
         substeps_with_separate_agent_nets := [1] } : TorchPolicy Nat Nat Nat)
      (some ⟨1, 0⟩) = .ok 11 ∧
    TorchPolicy.network_for
      ({ networks := [(.byStep 0, 10), (.byActor ⟨1, 0⟩, 11), (.byActor ⟨1, 1⟩, 12)]
         distribution_mapper := ⟨[], fun _ _ => 0⟩
         substeps_with_separate_agent_nets := [1] } : TorchPolicy Nat Nat Nat)
      (some ⟨1, 1⟩) = .ok 12 ∧
    (11 : Nat) ≠ 12 ∧
    (∀ agent_id, TorchPolicy.network_for
      ({ networks := [(.byStep 0, 10), (.byActor ⟨1, 0⟩, 11), (.byActor ⟨1, 1⟩, 12)]
         distribution_mapper := ⟨[], fun _ _ => 0⟩
         substeps_with_separate_agent_nets := [1] } : TorchPolicy Nat Nat Nat)
      (some ⟨0, agent_id⟩) = .ok 10) :=
  (@network_for_some_spec Nat Nat Nat).2 ⟨[], fun _ _ => 0⟩ 10 11 12 (by decide)

/-- C2: partitioning inside `compute_substep_policy_output` — for a network
output whose key set is a strict superset of the action-space key set, the
action logits are the action-space-restricted sub-dictionary and the
embedding logits are the non-empty remaining entries; when the key sets are
exactly equal, the action logits are the whole dictionary, the embedding
logits are `None`, and no error is raised. -/
theorem compute_substep_policy_output_partition_spec
    {Obs Net Tensor SD Dist : Type}
    (ops : TorchOps Obs Net Tensor SD) (p : TorchPolicy Net Tensor Dist)
    (observation : Obs) (actor_id : Option ActorID) (temperature : ℚ) (net : Net)
    (network_out : List (String × Tensor)) (keys : List String)
    (hnet : p.network_for actor_id = .ok net)
    (hout : network_out = ops.forward net (ops.convert_to_torch observation))
    (hkeys : keys = p.distribution_mapper.action_space_keys) :
    ((∀ k ∈ keys, k ∈ network_out.map Prod.fst) ∧
        (∃ k ∈ network_out.map Prod.fst, k ∉ keys) →
      compute_substep_policy_output ops p observation actor_id temperature =
        .ok { action_logits := network_out.filter (fun ii => decide (ii.1 ∈ keys))
              prob_dist := p.distribution_mapper.logits_dict_to_distribution
                (network_out.filter (fun ii => decide (ii.1 ∈ keys))) temperature
              embedding_logits := some (network_out.filter (fun ii => decide (ii.1 ∉ keys)))
              actor_id := actor_id } ∧
      network_out.filter (fun ii => decide (ii.1 ∉ keys)) ≠ []) ∧
    ((∀ k, k ∈ network_out.map Prod.fst ↔ k ∈ keys) →
      compute_substep_policy_output ops p observation actor_id temperature =
        .ok { action_logits := network_out
              prob_dist := p.distribution_mapper.logits_dict_to_distribution
                network_out temperature
              embedding_logits := none
              actor_id := actor_id }) := by
  subst hout hkeys
  constructor
  · rintro ⟨-, k, hk, hknotin⟩
    obtain ⟨pair, hmem, rfl⟩ := List.mem_map.mp hk
    have hany : (ops.forward net (ops.convert_to_torch observation)).any
        (fun ii => decide (ii.1 ∉ p.distribution_mapper.action_space_keys)) = true :=
      List.any_eq_true.mpr ⟨pair, hmem, by simpa using hknotin⟩
    refine ⟨?_, ?_⟩
    · unfold compute_substep_policy_output
      rw [hnet]
      dsimp only
      rw [if_pos hany]
    · intro hnil
      have hp := List.filter_eq_nil_iff.mp hnil pair hmem
      simp only [decide_eq_true_eq] at hp
      exact hp hknotin
  · intro hiff
    have hany : (ops.forward net (ops.convert_to_torch observation)).any
        (fun ii => decide (ii.1 ∉ p.distribution_mapper.action_space_keys)) = false := by
      rw [List.any_eq_false]
      intro ii hmem
      simp [(hiff ii.1).mp (List.mem_map_of_mem Prod.fst hmem)]
    unfold compute_substep_policy_output
    rw [hnet]
    dsimp only
    rw [hany, if_neg Bool.false_ne_true]

/-- C2 witness: a network emitting one extra key `"emb"` beyond the single
action-space key `"a"`. -/
theorem compute_substep_policy_output_partition_spec_witness :
    compute_substep_policy_output
      (⟨id, fun net obs => [("a", net), ("emb", obs)], id, fun n _ => n⟩ :
        TorchOps Nat Nat Nat Nat)
      ({ networks := [(.byStep 0, 1)]
         distribution_mapper := ⟨["a"], fun l t => (l, t)⟩
         substeps_with_separate_agent_nets := [] } :
        TorchPolicy Nat Nat (List (String × Nat) × ℚ))
      7 (some ⟨0, 0⟩) 1 =
      .ok { action_logits := [("a", 1)]
            prob_dist := ([("a", 1)], 1)
            embedding_logits := some [("emb", 7)]
            actor_id := some ⟨0, 0⟩ } ∧
    ([("emb", 7)] : List (String × Nat)) ≠ [] :=
  (compute_substep_policy_output_partition_spec
    (⟨id, fun net obs => [("a", net), ("emb", obs)], id, fun n _ => n⟩ :
      TorchOps Nat Nat Nat Nat)
    ({ networks := [(.byStep 0, 1)]
       distribution_mapper := ⟨["a"], fun l t => (l, t)⟩
       substeps_with_separate_agent_nets := [] } :
      TorchPolicy Nat Nat (List (String × Nat) × ℚ))
    7 (some ⟨0, 0⟩) 1 1 [("a", 1), ("emb", 7)] ["a"] rfl rfl rfl).1 (by decide)

/-- C5: `compute_logits_dict` with `return_embedding=True` raises the
missing-embedding configuration error whenever every network output key lies
in the action space, and succeeds with the non-empty embedding partition as
soon as at least one extra key exists. -/
theorem compute_logits_dict_embedding_spec
    {Obs Net Tensor SD Dist : Type}
    (ops : TorchOps Obs Net Tensor SD) (p : TorchPolicy Net Tensor Dist)
    (observation : Obs) (actor_id : Option ActorID) (net : Net)
    (network_out : List (String × Tensor)) (keys : List String)
    (hnet : p.network_for actor_id = .ok net)
    (hout : network_out = ops.forward net (ops.convert_to_torch observation))
    (hkeys : keys = p.distribution_mapper.action_space_keys) :
    ((∀ k ∈ network_out.map Prod.fst, k ∈ keys) →
      compute_logits_dict ops p observation actor_id true =
        .error .missingEmbeddingOutput) ∧
    ((∃ k ∈ network_out.map Prod.fst, k ∉ keys) →
      compute_logits_dict ops p observation actor_id true =
        .ok (network_out.filter (fun ii => decide (ii.1 ∈ keys)),
             some (network_out.filter (fun ii => decide (ii.1 ∉ keys)))) ∧
      network_out.filter (fun ii => decide (ii.1 ∉ keys)) ≠ []) := by
  subst hout hkeys
  constructor
  · intro hall
    have hfil : (ops.forward net (ops.convert_to_torch observation)).filter
        (fun ii => decide (ii.1 ∉ p.distribution_mapper.action_space_keys)) = [] := by
      rw [List.filter_eq_nil_iff]
      intro ii hmem
      simp [hall ii.1 (List.mem_map_of_mem Prod.fst hmem)]
    unfold compute_logits_dict
    rw [hnet]
    dsimp only
    rw [hfil, if_neg (by simp)]
  · rintro ⟨k, hk, hknotin⟩
    obtain ⟨pair, hmem, rfl⟩ := List.mem_map.mp hk
    have hne : (ops.forward net (ops.convert_to_torch observation)).filter
        (fun ii => decide (ii.1 ∉ p.distribution_mapper.action_space_keys)) ≠ [] := by
      intro hnil
      have hp := List.filter_eq_nil_iff.mp hnil pair hmem
      simp only [decide_eq_true_eq] at hp
      exact hp hknotin
    have hany : (ops.forward net (ops.convert_to_torch observation)).any
        (fun ii => decide (ii.1 ∉ p.distribution_mapper.action_space_keys)) = true :=
      List.any_eq_true.mpr ⟨pair, hmem, by simpa using hknotin⟩
    have hlen : ((ops.forward net (ops.convert_to_torch observation)).filter
        (fun ii => decide (ii.1 ∉ p.distribution_mapper.action_space_keys))).length > 0 :=
      List.length_pos.mpr hne
    refine ⟨?_, hne⟩
    unfold compute_logits_dict
    rw [hnet]
    dsimp only
    rw [if_pos hlen]
    dsimp only
    rw [if_pos hany]

/-- C5 witness: with output keys exactly the action-space keys, requesting
the embedding raises the missing-embedding error. -/
theorem compute_logits_dict_embedding_spec_witness :
    compute_logits_dict
      (⟨id, fun net _ => [("a", net)], id, fun n _ => n⟩ : TorchOps Nat Nat Nat Nat)
      ({ networks := [(.byStep 0, 1)]
         distribution_mapper := ⟨["a"], fun l t => (l, t)⟩
         substeps_with_separate_agent_nets := [] } :
        TorchPolicy Nat Nat (List (String × Nat) × ℚ))
      7 (some ⟨0, 0⟩) true = .error .missingEmbeddingOutput :=
  (compute_logits_dict_embedding_spec
    (⟨id, fun net _ => [("a", net)], id, fun n _ => n⟩ : TorchOps Nat Nat Nat Nat)
    ({ networks := [(.byStep 0, 1)]
       distribution_mapper := ⟨["a"], fun l t => (l, t)⟩
       substeps_with_separate_agent_nets := [] } :
      TorchPolicy Nat Nat (List (String × Nat) × ℚ))
    7 (some ⟨0, 0⟩) 1 [("a", 1)] ["a"] rfl rfl rfl).1 (by decide)

/-- C9: `compute_logits_dict` with `return_embedding=False` always returns
`None` as its embedding component, and when the network emits keys outside
the action space those extra keys are silently dropped from the returned
logits dictionary, with no error raised. -/
theorem compute_logits_dict_no_embedding_spec
    {Obs Net Tensor SD Dist : Type}
    (ops : TorchOps Obs Net Tensor SD) (p : TorchPolicy Net Tensor Dist)
    (observation : Obs) (actor_id : Option ActorID) (net : Net)
    (network_out : List (String × Tensor)) (keys : List String)
    (hnet : p.network_for actor_id = .ok net)
    (hout : network_out = ops.forward net (ops.convert_to_torch observation))
    (hkeys : keys = p.distribution_mapper.action_space_keys) :
    (∃ r, compute_logits_dict ops p observation actor_id false = .ok r ∧ r.2 = none) ∧
    ((∃ k ∈ network_out.map Prod.fst, k ∉ keys) →
      compute_logits_dict ops p observation actor_id false =
        .ok (network_out.filter (fun ii => decide (ii.1 ∈ keys)), none)) := by
  subst hout hkeys
  constructor
  · cases hb : (ops.forward net (ops.convert_to_torch observation)).any
        (fun ii => decide (ii.1 ∉ p.distribution_mapper.action_space_keys)) with
    | false =>
      refine ⟨(ops.forward net (ops.convert_to_torch observation), none), ?_, rfl⟩
      unfold compute_logits_dict
      rw [hnet]
      dsimp only
      rw [hb, if_neg Bool.false_ne_true]
    | true =>
      refine ⟨((ops.forward net (ops.convert_to_torch observation)).filter
          (fun ii => decide (ii.1 ∈ p.distribution_mapper.action_space_keys)), none), ?_, rfl⟩
      unfold compute_logits_dict
      rw [hnet]
      dsimp only
      rw [if_pos hb]
  · rintro ⟨k, hk, hknotin⟩
    obtain ⟨pair, hmem, rfl⟩ := List.mem_map.mp hk
    have hany : (ops.forward net (ops.convert_to_torch observation)).any
        (fun ii => decide (ii.1 ∉ p.distribution_mapper.action_space_keys)) = true :=
      List.any_eq_true.mpr ⟨pair, hmem, by simpa using hknotin⟩
    unfold compute_logits_dict
    rw [hnet]
    dsimp only
    rw [if_pos hany]

/-- C9 witness: the extra key `"emb"` is dropped and the embedding component
is `None`. -/
theorem compute_logits_dict_no_embedding_spec_witness :
    compute_logits_dict
      (⟨id, fun net obs => [("a", net), ("emb", obs)], id, fun n _ => n⟩ :
        TorchOps Nat Nat Nat Nat)
      ({ networks := [(.byStep 0, 1)]
         distribution_mapper := ⟨["a"], fun l t => (l, t)⟩
         substeps_with_separate_agent_nets := [] } :
        TorchPolicy Nat Nat (List (String × Nat) × ℚ))
      7 (some ⟨0, 0⟩) false = .ok ([("a", 1)], none) :=
  (compute_logits_dict_no_embedding_spec
    (⟨id, fun net obs => [("a", net), ("emb", obs)], id, fun n _ => n⟩ :
      TorchOps Nat Nat Nat Nat)
    ({ networks := [(.byStep 0, 1)]
       distribution_mapper := ⟨["a"], fun l t => (l, t)⟩
       substeps_with_separate_agent_nets := [] } :
      TorchPolicy Nat Nat (List (String × Nat) × ℚ))
    7 (some ⟨0, 0⟩) 1 [("a", 1), ("emb", 7)] ["a"] rfl rfl rfl).2 (by decide)

/-- C10: for the dummy structured core environment, reset sets
`current_agent` to 0, a step taken at `current_agent = 0` sets it to 1 with
reward 0 and no env-step increment, a step taken at `current_agent = 1` sets
it back to 0 with the aggregated reward and an env-step increment, every
step lands back in `{0, 1}`, and `actor_id()` is `(0, current_agent)`. -/
theorem dummy_structured_core_env_spec {Obs : Type} :
    (∀ env : DummyStructuredCoreEnvironment Obs, env.reset.1.current_agent = 0) ∧
    (∀ env : DummyStructuredCoreEnvironment Obs, env.current_agent = 0 →
      env.step.1.current_agent = 1 ∧ env.step.2.2.1 = 0 ∧
      env.step.1.env_step_count = env.env_step_count) ∧
    (∀ env : DummyStructuredCoreEnvironment Obs, env.current_agent = 1 →
      env.step.1.current_agent = 0 ∧ env.step.2.2.1 = env.summarized_reward ∧
      env.step.1.env_step_count = env.env_step_count + 1) ∧
    (∀ env : DummyStructuredCoreEnvironment Obs,
      env.step.1.current_agent = 0 ∨ env.step.1.current_agent = 1) ∧
    (∀ env : DummyStructuredCoreEnvironment Obs,
      env.actor_id = (0, env.current_agent)) := by
  refine ⟨fun env => rfl, ?_, ?_, ?_, fun env => rfl⟩
  · intro env h
    simp [DummyStructuredCoreEnvironment.step, h]
  · intro env h
    simp [DummyStructuredCoreEnvironment.step, h]
  · intro env
    by_cases h : env.current_agent = 0 <;>
      simp [DummyStructuredCoreEnvironment.step, h]

/-- C10 witness: stepping the concrete environment at the second agent. -/
theorem dummy_structured_core_env_spec_witness :
    (({ current_agent := 1, env_step_count := 3, sampled_observation := ()
        summarized_reward := 5 } : DummyStructuredCoreEnvironment Unit).step).1.current_agent = 0 ∧
    (({ current_agent := 1, env_step_count := 3, sampled_observation := ()
        summarized_reward := 5 } : DummyStructuredCoreEnvironment Unit).step).2.2.1 = 5 ∧
    (({ current_agent := 1, env_step_count := 3, sampled_observation := ()
        summarized_reward := 5 } : DummyStructuredCoreEnvironment Unit).step).1.env_step_count = 3 + 1 :=
  (@dummy_structured_core_env_spec Unit).2.2.1 _ rfl

/-- Helper: when the network resolves, `compute_substep_policy_output`
succeeds and tags the output with the supplied actor id. -/
theorem compute_substep_policy_output_isOk
    {Obs Net Tensor SD Dist : Type}
    (ops : TorchOps Obs Net Tensor SD) (p : TorchPolicy Net Tensor Dist)
    (observation : Obs) (actor_id : Option ActorID) (temperature : ℚ) (net : Net)
    (hnet : p.network_for actor_id = .ok net) :
    ∃ out, compute_substep_policy_output ops p observation actor_id temperature = .ok out ∧
      out.actor_id = actor_id := by
  unfold compute_substep_policy_output
  rw [hnet]
  dsimp only
  by_cases hc : ((ops.forward net (ops.convert_to_torch observation)).any
      (fun ii => decide (ii.1 ∉ p.distribution_mapper.action_space_keys))) = true
  · rw [if_pos hc]
    exact ⟨_, rfl, rfl⟩
  · rw [if_neg hc]
    exact ⟨_, rfl, rfl⟩

/-- Helper: the induction behind C1, over the record list consumed by
`compute_substep_outputs`. -/
theorem compute_substep_outputs_spec
    {Obs Net Tensor SD Dist : Type}
    (ops : TorchOps Obs Net Tensor SD) (p : TorchPolicy Net Tensor Dist)
    (temperature : ℚ) (rs : List (SpacesRecord Obs))
    (hres : ∀ r ∈ rs, ∃ net, p.network_for (some r.actor_id) = .ok net) :
    ∃ outs, compute_substep_outputs ops p temperature rs = .ok outs ∧
      outs.length = rs.length ∧
      (∀ i (h1 : i < rs.length) (h2 : i < outs.length),
        compute_substep_policy_output ops p (rs.get ⟨i, h1⟩).observation
          (some (rs.get ⟨i, h1⟩).actor_id) temperature = .ok (outs.get ⟨i, h2⟩)) := by
  induction rs with
  | nil =>
    exact ⟨[], rfl, rfl, fun i h1 => absurd h1 (by simp)⟩
  | cons r rest ih =>
    obtain ⟨net, hnet⟩ := hres r (List.mem_cons_self r rest)
    obtain ⟨out, hout, -⟩ :=
      compute_substep_policy_output_isOk ops p r.observation (some r.actor_id) temperature net hnet
    obtain ⟨outs, houts, hlen, hidx⟩ :=
      ih (fun q hq => hres q (List.mem_cons_of_mem r hq))
    refine ⟨out :: outs, ?_, by simp [hlen], ?_⟩
    · unfold compute_substep_outputs
      rw [hout, houts]
    · intro i h1 h2
      cases i with
      | zero => simpa using hout
      | succ n =>
        simpa using hidx n (by simpa using h1) (by simpa using h2)

/-- C1: for a structured spaces record with `k` sub-step entries (each of
which resolves to a registered network), `compute_policy_output` returns a
`PolicyOutput` of exactly `k` sub-step outputs, the i-th being the result of
the single-sub-step orchestration on the i-th entry, with `actor_ids()[i]`
equal to the i-th entry's actor id. -/
theorem compute_policy_output_spec
    {Obs Net Tensor SD Dist : Type}
    (ops : TorchOps Obs Net Tensor SD) (p : TorchPolicy Net Tensor Dist)
    (record : StructuredSpacesRecord Obs) (temperature : ℚ)
    (hres : ∀ r ∈ record.substep_records, ∃ net, p.network_for (some r.actor_id) = .ok net) :
    ∃ po, compute_policy_output ops p record temperature = .ok po ∧
      po.step_policy_outputs.length = record.substep_records.length ∧
      (∀ i (h1 : i < record.substep_records.length) (h2 : i < po.step_policy_outputs.length),
        compute_substep_policy_output ops p
          (record.substep_records.get ⟨i, h1⟩).observation
          (some (record.substep_records.get ⟨i, h1⟩).actor_id) temperature =
          .ok (po.step_policy_outputs.get ⟨i, h2⟩)) ∧
      (∀ i (h1 : i < record.substep_records.length) (h2 : i < po.actor_ids.length),
        po.actor_ids.get ⟨i, h2⟩ = some (record.substep_records.get ⟨i, h1⟩).actor_id) := by
  obtain ⟨outs, houts, hlen, hidx⟩ :=
    compute_substep_outputs_spec ops p temperature record.substep_records hres
  refine ⟨⟨outs⟩, ?_, hlen, hidx, ?_⟩
  · unfold compute_policy_output
    rw [houts]
  · intro i h1 h2
    have h2' : i < outs.length := by simpa [PolicyOutput.actor_ids] using h2
    have hstep := hidx i h1 h2'
    obtain ⟨out, hout, hactor⟩ :=
      compute_substep_policy_output_isOk ops p
        (record.substep_records.get ⟨i, h1⟩).observation
        (some (record.substep_records.get ⟨i, h1⟩).actor_id) temperature
        (Classical.choose (hres _ (List.get_mem _ _ _)))
        (Classical.choose_spec (hres _ (List.get_mem _ _ _)))
    rw [hout] at hstep
    have : outs.get ⟨i, h2'⟩ = out := by
      injection hstep.symm
    have hget : ({ step_policy_outputs := outs } : PolicyOutput Tensor Dist).actor_ids.get ⟨i, h2⟩ =
        (outs.get ⟨i, h2'⟩).actor_id := by
      simp [PolicyOutput.actor_ids]
    rw [hget, this, hactor]

/-- C1 witness: a two-sub-step record evaluated against a registry with one
network per step key. -/
theorem compute_policy_output_spec_witness :
    ∃ po, compute_policy_output
        (⟨id, fun net obs => [("a", net + obs)], id, fun n _ => n⟩ :
          TorchOps Nat Nat Nat Nat)
        ({ networks := [(.byStep 0, 1), (.byStep 1, 2)]
           distribution_mapper := ⟨["a"], fun l t => (l, t)⟩
           substeps_with_separate_agent_nets := [] } :
          TorchPolicy Nat Nat (List (String × Nat) × ℚ))
        ⟨[⟨5, ⟨0, 0⟩⟩, ⟨6, ⟨1, 0⟩⟩]⟩ 1 = .ok po ∧
      po.step_policy_outputs.length = 2 ∧
      (∀ i (h1 : i < ([⟨5, ⟨0, 0⟩⟩, ⟨6, ⟨1, 0⟩⟩] : List (SpacesRecord Nat)).length)
          (h2 : i < po.step_policy_outputs.length),
        compute_substep_policy_output
          (⟨id, fun net obs => [("a", net + obs)], id, fun n _ => n⟩ :
            TorchOps Nat Nat Nat Nat)
          ({ networks := [(.byStep 0, 1), (.byStep 1, 2)]
             distribution_mapper := ⟨["a"], fun l t => (l, t)⟩
             substeps_with_separate_agent_nets := [] } :
            TorchPolicy Nat Nat (List (String × Nat) × ℚ))
          (([⟨5, ⟨0, 0⟩⟩, ⟨6, ⟨1, 0⟩⟩] : List (SpacesRecord Nat)).get ⟨i, h1⟩).observation
          (some (([⟨5, ⟨0, 0⟩⟩, ⟨6, ⟨1, 0⟩⟩] : List (SpacesRecord Nat)).get ⟨i, h1⟩).actor_id) 1 =
          .ok (po.step_policy_outputs.get ⟨i, h2⟩)) ∧
      (∀ i (h1 : i < ([⟨5, ⟨0, 0⟩⟩, ⟨6, ⟨1, 0⟩⟩] : List (SpacesRecord Nat)).length)
          (h2 : i < po.actor_ids.length),
        po.actor_ids.get ⟨i, h2⟩ =
          some (([⟨5, ⟨0, 0⟩⟩, ⟨6, ⟨1, 0⟩⟩] : List (SpacesRecord Nat)).get ⟨i, h1⟩).actor_id) :=
  compute_policy_output_spec
    (⟨id, fun net obs => [("a", net + obs)], id, fun n _ => n⟩ :
      TorchOps Nat Nat Nat Nat)
    ({ networks := [(.byStep 0, 1), (.byStep 1, 2)]
       distribution_mapper := ⟨["a"], fun l t => (l, t)⟩
       substeps_with_separate_agent_nets := [] } :
      TorchPolicy Nat Nat (List (String × Nat) × ℚ))
    ⟨[⟨5, ⟨0, 0⟩⟩, ⟨6, ⟨1, 0⟩⟩]⟩ 1
    (by
      intro r hr
      fin_cases hr
      · exact ⟨1, rfl⟩
      · exact ⟨2, rfl⟩)

/-- Helper: the mapped-zip over projected distributions used by
`compute_action_log_probs` agrees with a `zipWith` over the sub-step
outputs themselves. -/
theorem map_zip_prob_dist_eq_zipWith {Tensor Dist Action : Type}
    (log_prob : Dist → Action → Tensor) :
    ∀ (steps : List (PolicySubStepOutput Tensor Dist)) (actions : List Action),
      ((steps.map (fun x => x.prob_dist)).zip actions).map
          (fun pa => log_prob pa.1 pa.2) =
        List.zipWith (fun out ac => log_prob out.prob_dist ac) steps actions := by
  intro steps
  induction steps with
  | nil => intro actions; simp
  | cons s rest ih =>
    intro actions
    cases actions with
    | nil => simp
    | cons a as => simp [ih as]

/-- C6: `compute_action_log_probs` raises on a length mismatch between the
policy output and the action list; otherwise it returns the list of
per-position log-probabilities `log_prob(policy_output[i].prob_dist,
actions[i])`, of the same length as `actions` and in the same order. -/
theorem compute_action_log_probs_spec {Tensor Dist Action : Type}
    (log_prob : Dist → Action → Tensor) (policy_output : PolicyOutput Tensor Dist)
    (actions : List Action) :
    (policy_output.step_policy_outputs.length ≠ actions.length →
      compute_action_log_probs log_prob policy_output actions = .error .lengthMismatch) ∧
    (policy_output.step_policy_outputs.length = actions.length →
      compute_action_log_probs log_prob policy_output actions =
        .ok (List.zipWith (fun out ac => log_prob out.prob_dist ac)
          policy_output.step_policy_outputs actions) ∧
      (List.zipWith (fun out ac => log_prob out.prob_dist ac)
        policy_output.step_policy_outputs actions).length = actions.length ∧
      (∀ i (h1 : i < policy_output.step_policy_outputs.length) (h2 : i < actions.length)
          (hz : i < (List.zipWith (fun out ac => log_prob out.prob_dist ac)
            policy_output.step_policy_outputs actions).length),
        (List.zipWith (fun out ac => log_prob out.prob_dist ac)
            policy_output.step_policy_outputs actions).get ⟨i, hz⟩ =
          log_prob (policy_output.step_policy_outputs.get ⟨i, h1⟩).prob_dist
            (actions.get ⟨i, h2⟩))) := by
  have hplen : policy_output.prob_dist.length = policy_output.step_policy_outputs.length := by
    simp [PolicyOutput.prob_dist]
  constructor
  · intro hne
    unfold compute_action_log_probs
    rw [if_neg]
    rw [hplen]
    exact hne
  · intro heq
    refine ⟨?_, ?_, ?_⟩
    · unfold compute_action_log_probs
      rw [if_pos (by rw [hplen]; exact heq)]
      rw [PolicyOutput.prob_dist, map_zip_prob_dist_eq_zipWith]
    · simp [heq]
    · intro i h1 h2 hz
      simp [List.getElem_zipWith]

/-- C6 witness: two sub-steps, two actions, matching lengths. -/
theorem compute_action_log_probs_spec_witness :
    (({ step_policy_outputs := [⟨[], 3, none, none⟩, ⟨[], 4, none, none⟩] } :
        PolicyOutput Nat Nat).step_policy_outputs.length = ([10, 20] : List Nat).length) ∧
    (compute_action_log_probs (fun d a => d + a)
        ({ step_policy_outputs := [⟨[], 3, none, none⟩, ⟨[], 4, none, none⟩] } :
          PolicyOutput Nat Nat) [10, 20] = .ok [13, 24] ∧
      ([13, 24] : List Nat).length = ([10, 20] : List Nat).length) :=
  ⟨rfl,
    ((compute_action_log_probs_spec ((fun d a => d + a) : Nat → Nat → Nat)
      ({ step_policy_outputs := [⟨[], 3, none, none⟩, ⟨[], 4, none, none⟩] } :
        PolicyOutput Nat Nat) ([10, 20] : List Nat)).2 rfl).1,
    ((compute_action_log_probs_spec ((fun d a => d + a) : Nat → Nat → Nat)
      ({ step_policy_outputs := [⟨[], 3, none, none⟩, ⟨[], 4, none, none⟩] } :
        PolicyOutput Nat Nat) ([10, 20] : List Nat)).2 rfl).2.1⟩

/-- Helper: `load_networks` raises a missing-state-dict-entry error when some
registered key has no entry in the supplied `"policies"` sub-dictionary. -/
theorem load_networks_missing {Obs Net Tensor SD : Type}
    (ops : TorchOps Obs Net Tensor SD) (sdp : List (NetworkKey × SD)) :
    ∀ nets : List (NetworkKey × Net),
      (∃ kp ∈ nets, dictLookup kp.1 sdp = (none : Option SD)) →
      ∃ k, load_networks ops nets sdp = .error (.missingStateDictEntry k) := by
  intro nets
  induction nets with
  | nil =>
    rintro ⟨kp, hmem, -⟩
    exact absurd hmem (by simp)
  | cons q rest ih =>
    rintro ⟨kp, hmem, hnone⟩
    rcases List.mem_cons.mp hmem with rfl | hmem'
    · refine ⟨kp.1, ?_⟩
      unfold load_networks
      rw [hnone]
    · cases hq : dictLookup q.1 sdp with
      | none =>
        refine ⟨q.1, ?_⟩
        unfold load_networks
        rw [hq]
      | some sd =>
        obtain ⟨k, hk⟩ := ih ⟨kp, hmem', hnone⟩
        refine ⟨k, ?_⟩
        unfold load_networks
        rw [hq]
        dsimp only
        rw [hk]

/-- Helper: `load_networks` succeeds when every registered key has an entry
in the supplied `"policies"` sub-dictionary (extra entries are never
inspected). -/
theorem load_networks_total {Obs Net Tensor SD : Type}
    (ops : TorchOps Obs Net Tensor SD) (sdp : List (NetworkKey × SD)) :
    ∀ nets : List (NetworkKey × Net),
      (∀ kp ∈ nets, ∃ e, dictLookup kp.1 sdp = some e) →
      ∃ nets2, load_networks ops nets sdp = .ok nets2 := by
  intro nets
  induction nets with
  | nil => exact fun _ => ⟨[], rfl⟩
  | cons q rest ih =>
    intro h
    obtain ⟨e, he⟩ := h q (List.mem_cons_self q rest)
    obtain ⟨nets2, h2⟩ := ih (fun kp hm => h kp (List.mem_cons_of_mem q hm))
    refine ⟨(q.1, ops.module_load_state_dict q.2 e) :: nets2, ?_⟩
    unfold load_networks
    rw [he]
    dsimp only
    rw [h2]

/-- C7 counterexample: with one network registered under key 0 and a
supplied state dict that is empty (so the registered key certainly has no
corresponding entry), `load_state_dict` does not raise — the missing
top-level `"policies"` entry makes it return silently. -/
theorem load_state_dict_missing_entry_counterexample :
    TorchPolicy.load_state_dict
      (⟨id, fun n _ => [("a", n)], id, fun n _ => n⟩ : TorchOps Nat Nat Nat Nat)
      ({ networks := [(.byStep 0, 5)]
         distribution_mapper := ⟨[], fun _ _ => 0⟩
         substeps_with_separate_agent_nets := [] } : TorchPolicy Nat Nat Nat)
      [] =
      .ok { networks := [(.byStep 0, 5)]
            distribution_mapper := ⟨[], fun _ _ => 0⟩
            substeps_with_separate_agent_nets := [] } :=
  rfl

/-- C7 (amended): when the supplied state dict carries the top-level
`"policies"` entry, `load_state_dict` raises a missing-state-dict-entry
error whenever some registered network key has no corresponding entry under
it, and succeeds whenever every registered key has one (entries matching no
registered key are tolerated); a supplied state dict without a `"policies"`
entry is silently accepted without loading anything. -/
theorem load_state_dict_spec {Obs Net Tensor SD Dist : Type}
    (ops : TorchOps Obs Net Tensor SD) (p : TorchPolicy Net Tensor Dist)
    (sd : List (String × List (NetworkKey × SD))) :
    (dictLookup "policies" sd = none →
      TorchPolicy.load_state_dict ops p sd = .ok p) ∧
    (∀ sdp, dictLookup "policies" sd = some sdp →
      ((∃ kp ∈ p.networks, dictLookup kp.1 sdp = (none : Option SD)) →
        ∃ k, TorchPolicy.load_state_dict ops p sd =
          .error (.missingStateDictEntry k)) ∧
      ((∀ kp ∈ p.networks, ∃ e, dictLookup kp.1 sdp = some e) →
        ∃ p2, TorchPolicy.load_state_dict ops p sd = .ok p2)) := by
  constructor
  · intro h
    unfold TorchPolicy.load_state_dict
    rw [h]
  · intro sdp hsdp
    constructor
    · intro hmiss
      obtain ⟨k, hk⟩ := load_networks_missing ops sdp p.networks hmiss
      refine ⟨k, ?_⟩
      unfold TorchPolicy.load_state_dict
      rw [hsdp]
      dsimp only
      rw [hk]
    · intro hall
      obtain ⟨nets2, h2⟩ := load_networks_total ops sdp p.networks hall
      refine ⟨{ p with networks := nets2 }, ?_⟩
      unfold TorchPolicy.load_state_dict
      rw [hsdp]
      dsimp only
      rw [h2]

/-- C7 witness: a supplied state dict whose `"policies"` section is empty
makes `load_state_dict` raise for the registered key 0. -/
theorem load_state_dict_spec_witness :
    ∃ k, TorchPolicy.load_state_dict
      (⟨id, fun n _ => [("a", n)], id, fun n _ => n⟩ : TorchOps Nat Nat Nat Nat)
      ({ networks := [(.byStep 0, 5)]
         distribution_mapper := ⟨[], fun _ _ => 0⟩
         substeps_with_separate_agent_nets := [] } : TorchPolicy Nat Nat Nat)
      [("policies", [])] = .error (.missingStateDictEntry k) :=
  ((load_state_dict_spec
      (⟨id, fun n _ => [("a", n)], id, fun n _ => n⟩ : TorchOps Nat Nat Nat Nat)
      ({ networks := [(.byStep 0, 5)]
         distribution_mapper := ⟨[], fun _ _ => 0⟩
         substeps_with_separate_agent_nets := [] } : TorchPolicy Nat Nat Nat)
      [("policies", [])]).2 [] rfl).1 ⟨(.byStep 0, 5), by simp, rfl⟩

/-- Helper: with unique registry keys, looking a registered key up among the
saved per-network states returns that network's own saved state. -/
theorem dictLookup_saved {Obs Net Tensor SD : Type}
    (ops : TorchOps Obs Net Tensor SD) :
    ∀ nets : List (NetworkKey × Net), (nets.map Prod.fst).Nodup →
      ∀ kp ∈ nets,
        dictLookup kp.1 (nets.map (fun q => (q.1, ops.module_state_dict q.2))) =
          some (ops.module_state_dict kp.2) := by
  intro nets
  induction nets with
  | nil =>
    intro _ kp hm
    exact absurd hm (by simp)
  | cons q rest ih =>
    intro hnd kp hm
    rw [List.map_cons, List.nodup_cons] at hnd
    rcases List.mem_cons.mp hm with rfl | hm'
    · simp only [List.map_cons]
      unfold dictLookup
      rw [if_pos rfl]
    · have hne : ¬(q.1 = kp.1) := fun he =>
        hnd.1 (he ▸ List.mem_map_of_mem Prod.fst hm')
      simp only [List.map_cons]
      unfold dictLookup
      rw [if_neg hne]
      exact ih hnd.2 kp hm'

/-- Helper: `load_networks` run against the registry's own saved states
loads every network from its own state, in registry order. -/
theorem load_networks_saved {Obs Net Tensor SD : Type}
    (ops : TorchOps Obs Net Tensor SD) (sdp : List (NetworkKey × SD)) :
    ∀ nets : List (NetworkKey × Net),
      (∀ kp ∈ nets, dictLookup kp.1 sdp = some (ops.module_state_dict kp.2)) →
      load_networks ops nets sdp =
        .ok (nets.map (fun kp =>
          (kp.1, ops.module_load_state_dict kp.2 (ops.module_state_dict kp.2)))) := by
  intro nets
  induction nets with
  | nil => exact fun _ => rfl
  | cons q rest ih =>
    intro h
    unfold load_networks
    rw [h q (List.mem_cons_self q rest)]
    dsimp only
    rw [ih (fun kp hm => h kp (List.mem_cons_of_mem q hm))]
    rfl

/-- C8: `state_dict` nests each network's state under its registry key below
the single top-level key `"policies"`, and `load_state_dict(state_dict())`
succeeds, preserving the registry keys and leaving every network functionally
identical (same forward outputs on every input), given unique registry keys
and the torch module contract that loading a module's own saved state
restores its forward behaviour. -/
theorem state_dict_roundtrip_spec {Obs Net Tensor SD Dist : Type}
    (ops : TorchOps Obs Net Tensor SD) (p : TorchPolicy Net Tensor Dist)
    (hnd : (p.networks.map Prod.fst).Nodup)
    (hfn : ∀ (n : Net) (o : Obs),
      ops.forward (ops.module_load_state_dict n (ops.module_state_dict n)) o =
        ops.forward n o) :
    TorchPolicy.state_dict ops p =
      [("policies", p.networks.map (fun kp => (kp.1, ops.module_state_dict kp.2)))] ∧
    ∃ p2, TorchPolicy.load_state_dict ops p (TorchPolicy.state_dict ops p) = .ok p2 ∧
      p2.networks.map Prod.fst = p.networks.map Prod.fst ∧
      p2.networks.length = p.networks.length ∧
      (∀ i (h1 : i < p2.networks.length) (h2 : i < p.networks.length) (o : Obs),
        ops.forward (p2.networks.get ⟨i, h1⟩).2 o =
          ops.forward (p.networks.get ⟨i, h2⟩).2 o) := by
  refine ⟨rfl, ?_⟩
  have hload := load_networks_saved ops
    (p.networks.map (fun q => (q.1, ops.module_state_dict q.2))) p.networks
    (fun kp hm => dictLookup_saved ops p.networks hnd kp hm)
  refine ⟨{ p with networks := p.networks.map (fun kp =>
      (kp.1, ops.module_load_state_dict kp.2 (ops.module_state_dict kp.2))) },
    ?_, ?_, ?_, ?_⟩
  · unfold TorchPolicy.load_state_dict TorchPolicy.state_dict
    unfold dictLookup
    rw [if_pos rfl]
    dsimp only
    rw [hload]
  · simp [List.map_map]
  · simp
  · intro i h1 h2 o
    simp only [List.get_eq_getElem, List.getElem_map]
    exact hfn _ o

/-- C8 witness: a two-network registry over identity save/load operations. -/
theorem state_dict_roundtrip_spec_witness :
    ((([(.byStep 0, 4), (.byStep 1, 6)] : List (NetworkKey × Nat)).map Prod.fst).Nodup) ∧
    (TorchPolicy.state_dict
        (⟨id, fun n o => [("x", n + o)], id, fun _ sd => sd⟩ : TorchOps Nat Nat Nat Nat)
        ({ networks := [(.byStep 0, 4), (.byStep 1, 6)]
           distribution_mapper := ⟨[], fun _ _ => 0⟩
           substeps_with_separate_agent_nets := [] } : TorchPolicy Nat Nat Nat) =
        [("policies", [(.byStep 0, 4), (.byStep 1, 6)])] ∧
      ∃ p2, TorchPolicy.load_state_dict
          (⟨id, fun n o => [("x", n + o)], id, fun _ sd => sd⟩ : TorchOps Nat Nat Nat Nat)
          ({ networks := [(.byStep 0, 4), (.byStep 1, 6)]
             distribution_mapper := ⟨[], fun _ _ => 0⟩
             substeps_with_separate_agent_nets := [] } : TorchPolicy Nat Nat Nat)
          (TorchPolicy.state_dict
            (⟨id, fun n o => [("x", n + o)], id, fun _ sd => sd⟩ : TorchOps Nat Nat Nat Nat)
            ({ networks := [(.byStep 0, 4), (.byStep 1, 6)]
               distribution_mapper := ⟨[], fun _ _ => 0⟩
               substeps_with_separate_agent_nets := [] } : TorchPolicy Nat Nat Nat)) = .ok p2 ∧
        p2.networks.map Prod.fst = [NetworkKey.byStep 0, NetworkKey.byStep 1] ∧
        p2.networks.length = 2 ∧
        (∀ i (h1 : i < p2.networks.length)
            (h2 : i < ([(.byStep 0, 4), (.byStep 1, 6)] : List (NetworkKey × Nat)).length)
            (o : Nat),
          (fun n bo => [("x", n + bo)] : Nat → Nat → List (String × Nat))
              (p2.networks.get ⟨i, h1⟩).2 o =
            (fun n bo => [("x", n + bo)] : Nat → Nat → List (String × Nat))
              (([(.byStep 0, 4), (.byStep 1, 6)] : List (NetworkKey × Nat)).get ⟨i, h2⟩).2 o)) :=
  ⟨by decide,
    state_dict_roundtrip_spec
      (⟨id, fun n o => [("x", n + o)], id, fun _ sd => sd⟩ : TorchOps Nat Nat Nat Nat)
      ({ networks := [(.byStep 0, 4), (.byStep 1, 6)]
         distribution_mapper := ⟨[], fun _ _ => 0⟩
         substeps_with_separate_agent_nets := [] } : TorchPolicy Nat Nat Nat)
      (by decide) (fun n o => rfl)⟩

end Maze
